import Mathlib

/-!
Verification of the batch identity and conversion driver of the dcm-brno
repository: the participant/session identity model (`utils.py`,
`fetch_participant_and_session`, `format_pvalue`), the roster loader and the
two dcm2bids wrapper entry points (`00b_dcm2bids_wrapper.py`,
`01_data_conversion_scripts/01b_dcm2bids_wrapper.py`).

The filesystem is modelled as the set of existing paths (a `List String`
together with `os.path.join` as string concatenation with `/`); the external
converter invocation is modelled as a record of its five parameters.
-/

namespace DcmBrno

/-- Python `s[a:]` (slice from index `a` to the end). -/
def sliceFrom (s : String) (a : Nat) : String :=
  String.mk (s.data.drop a)

/-- Python `s[a:b]` (slice from index `a` up to, not including, index `b`). -/
def sliceBetween (s : String) (a b : Nat) : String :=
  String.mk ((s.data.drop a).take (b - a))

/-- Lazy scan of `(.*?)[_/]`: take characters up to and including the first
`_` or `/`; fail on a newline (`.` does not match newline) or end of input. -/
def takeToDelim : List Char → Option (List Char)
  | [] => none
  | c :: cs =>
    if c == '_' || c == '/' then some [c]
    else if c == '\n' then none
    else (takeToDelim cs).map (fun m => c :: m)

/-- `re.search(pat ++ "(.*?)[_/]", s)`: leftmost starting position where the
literal pattern matches and a delimiter is reachable; returns `group(0)`. -/
def reSearchGroup0 (pat : List Char) : List Char → Option (List Char)
  | [] => none
  | c :: cs =>
    match (if pat.isPrefixOf (c :: cs) then
             (takeToDelim ((c :: cs).drop pat.length)).map (fun m => pat ++ m)
           else none) with
    | some m => some m
    | none => reSearchGroup0 pat cs

/-- `re.search('<pre>(.*?)[_/]', path)` followed by `group(0)[:-1]` on a hit
and `""` on a miss, as in `utils.fetch_participant_and_session`. -/
def fetchToken (pre : String) (path : String) : String :=
  match reSearchGroup0 pre.data path.data with
  | some m => String.mk m.dropLast
  | none => ""

/-- The session-disambiguation block of `utils.fetch_participant_and_session`
(lines 118-121): `if session_id[4:] == participant_id[4:9]` then `'Session 1'`,
`elif session_id[4:] == participant_id[9:]` then `'Session 2'`. There is no
`else` branch: `none` models the Python local variable `session` being left
unassigned, so that the subsequent `return` raises `UnboundLocalError`. -/
def sessionLabel (participant_id session_id : String) : Option String :=
  if sliceFrom session_id 4 = sliceBetween participant_id 4 9 then
    some "Session 1"
  else if sliceFrom session_id 4 = sliceFrom participant_id 9 then
    some "Session 2"
  else
    none

/-- `utils.fetch_participant_and_session`: extract the `sub-` and `ses-`
tokens, then return the participant token together with the session LABEL
(the code returns the variable `session`, not `session_id`). -/
def fetch_participant_and_session (filename_path : String) :
    String × Option String :=
  let participant_id := fetchToken "sub-" filename_path
  let session_id := fetchToken "ses-" filename_path
  (participant_id, sessionLabel participant_id session_id)

/-- `os.path.join(a, b)` for a relative second component. -/
def pathJoin (a b : String) : String := a ++ "/" ++ b

/-- One row of the roster table, restricted to the three columns the 01b
wrapper reads: the follow-up flag column and the two session-code columns. -/
structure RosterRow where
  fup : String
  mrB1 : String
  mrB2 : String
deriving DecidableEq, Repr

/-- `subject_id = source_id_ses_01 + source_id_ses_02` (01b wrapper line 99,
00b wrapper line 66): literal Python string concatenation. -/
def compositeId (row : RosterRow) : String := row.mrB1 ++ row.mrB2

/-- The five parameters of one `dcm2bids` invocation:
`-d` source DICOM directory, `-p` participant label, `-s` session label,
`-o` output BIDS directory, `-c` JSON configuration file. -/
structure Dcm2bidsCall where
  dicomDir : String
  participant : String
  session : String
  outputDir : String
  config : String
deriving DecidableEq, Repr

/-- Outcome of one (roster row, session slot) pair. -/
inductive ConversionOutcome where
  | executed (call : Dcm2bidsCall)
  | skippedAlreadyExists
  | missingSource
deriving DecidableEq, Repr

/-- One session slot of the 01b wrapper loop (lines 101-124 resp. 126-150):
if `sourcedata/sub-<source_id>` exists, and the destination
`<bids_folder>/sub-<subject_id>/ses-<source_id>` does not yet exist, run
dcm2bids; if the destination exists, skip; if the source is absent, record
that the subject does not exist. `fs` is the set of existing paths. -/
def planSlot (fs : List String) (dicomFolder bidsFolder configPath : String)
    (subjectId sourceId : String) : ConversionOutcome :=
  let subDicomFolderPath := pathJoin dicomFolder ("sub-" ++ sourceId)
  if subDicomFolderPath ∈ fs then
    if pathJoin (pathJoin bidsFolder ("sub-" ++ subjectId)) ("ses-" ++ sourceId) ∈ fs then
      ConversionOutcome.skippedAlreadyExists
    else
      ConversionOutcome.executed
        ⟨subDicomFolderPath, "sub-" ++ subjectId, "ses-" ++ sourceId,
         bidsFolder, configPath⟩
  else
    ConversionOutcome.missingSource

/-- One iteration of the 01b wrapper row loop: session-1 slot first, then the
session-2 slot, both for the composite subject id. -/
def planRow (fs : List String) (dicomFolder bidsFolder configPath : String)
    (row : RosterRow) : List ConversionOutcome :=
  [planSlot fs dicomFolder bidsFolder configPath (compositeId row) row.mrB1,
   planSlot fs dicomFolder bidsFolder configPath (compositeId row) row.mrB2]

/-- The roster filter of the 01b wrapper (line 81): keep only rows whose
follow-up flag equals the literal `'ano'`. -/
def filterRoster (rows : List RosterRow) : List RosterRow :=
  rows.filter (fun r => r.fup = "ano")

/-- The full planning pass of the 01b wrapper: filter the roster, then plan
both session slots of every remaining row, in roster order. -/
def planJobs (fs : List String) (dicomFolder bidsFolder configPath : String)
    (rows : List RosterRow) : List ConversionOutcome :=
  (filterRoster rows).foldr
    (fun row acc => planRow fs dicomFolder bidsFolder configPath row ++ acc) []

/-- One session slot of the 00b wrapper loop (lines 68-87 resp. 89-108):
if `sourcedata/sub-<source_id>` exists, run dcm2bids — there is no check of
the destination tree. -/
def planSlot00b (fs : List String) (dicomFolder bidsFolder configPath : String)
    (subjectId sourceId : String) : ConversionOutcome :=
  let subDicomFolderPath := pathJoin dicomFolder ("sub-" ++ sourceId)
  if subDicomFolderPath ∈ fs then
    ConversionOutcome.executed
      ⟨subDicomFolderPath, "sub-" ++ subjectId, "ses-" ++ sourceId,
       bidsFolder, configPath⟩
  else
    ConversionOutcome.missingSource

/-- One iteration of the 00b wrapper row loop: both session slots for the
composite subject id, no roster filter and no destination check. -/
def planRow00b (fs : List String) (dicomFolder bidsFolder configPath : String)
    (row : RosterRow) : List ConversionOutcome :=
  [planSlot00b fs dicomFolder bidsFolder configPath (compositeId row) row.mrB1,
   planSlot00b fs dicomFolder bidsFolder configPath (compositeId row) row.mrB2]

/-- The default column list of `utils.read_xlsx_file` (line 18), read by the
01b wrapper: the follow-up flag column and the two session-code columns. -/
def defaultColumns : List String :=
  ["FUP MR měření B provedeno (ano/ne)", "MR B1", "MR B2"]

/-- The roster spreadsheet: its header columns, and its data rows, each row a
mapping from column name to cell value. -/
structure XlsxSheet where
  columns : List String
  rows : List (String → String)

/-- Structural roster errors are fatal. -/
inductive RosterError where
  | missingColumn (c : String)
deriving DecidableEq, Repr

/-- `utils.read_xlsx_file` (utils.py lines 7-24): read the sheet restricted to
`columns_to_read`. Modelled from the spec: the `usecols` selection of the
external spreadsheet reader is not part of this repository; per the spec it
"fails with `MissingColumn` if a requested column is absent", otherwise it
returns the rows restricted to the requested columns. -/
def read_xlsx_file (sheet : XlsxSheet) (columnsToRead : List String) :
    Except RosterError (List (String → String)) :=
  match columnsToRead.find? (fun c => !sheet.columns.contains c) with
  | some c => Except.error (RosterError.missingColumn c)
  | none => Except.ok sheet.rows

/-- Project one sheet row onto the three columns the 01b wrapper uses. -/
def toRosterRow (r : String → String) : RosterRow :=
  ⟨r "FUP MR měření B provedeno (ano/ne)", r "MR B1", r "MR B2"⟩

/-- The 01b wrapper `main` up to and including planning: read the roster
restricted to the default columns (line 78) — a failure there aborts the run
before any row is visited — then filter and plan every row (lines 81, 94-150). -/
def main01b (fs : List String) (dicomFolder bidsFolder configPath : String)
    (sheet : XlsxSheet) : Except RosterError (List ConversionOutcome) :=
  match read_xlsx_file sheet defaultColumns with
  | Except.error e => Except.error e
  | Except.ok rows =>
      Except.ok (planJobs fs dicomFolder bidsFolder configPath
        (rows.map toRosterRow))

/-- A filesystem of text files: which paths exist, and the list of records
each path holds. -/
structure FileSys where
  present : String → Bool
  content : String → List String

/-- `os.remove(p)`. -/
def removeFile (fs : FileSys) (p : String) : FileSys :=
  ⟨fun q => if q == p then false else fs.present q,
   fun q => if q == p then [] else fs.content q⟩

/-- `logging.FileHandler(p)`: the default mode is `'a'` (append), so the file
is created if absent and its existing content is kept. -/
def openAppendHandler (fs : FileSys) (p : String) : FileSys :=
  ⟨fun q => if q == p then true else fs.present q, fs.content⟩

/-- Appending one log record to the file at `p`. -/
def writeRecord (fs : FileSys) (p : String) (r : String) : FileSys :=
  ⟨fs.present,
   fun q => if q == p then fs.content q ++ [r] else fs.content q⟩

/-- The log setup of the 01b wrapper `main` (lines 87-91):
`fname_log = 'dcm2bids.log'`; `os.path.exists(fname_log)` and
`os.remove(fname_log)` resolve the RELATIVE name against the current working
directory, while the `FileHandler` is opened on
`os.path.join(os.path.abspath(bids_folder), fname_log)`. Returns the updated
filesystem and the handler's path. -/
def setupLog (cwd bidsFolder : String) (fs : FileSys) : FileSys × String :=
  let fnameLog := "dcm2bids.log"
  let relPath := pathJoin cwd fnameLog
  let fs1 := if fs.present relPath then removeFile fs relPath else fs
  let handlerPath := pathJoin bidsFolder fnameLog
  (openAppendHandler fs1 handlerPath, handlerPath)

/-- `utils.format_pvalue` (utils.py lines 126-153). Numbers are modelled as
rationals; `strOf` and `roundTo` stand for the external Python builtins
`str` and `round`, which the function merely composes. -/
def format_pvalue (strOf : ℚ → String) (roundTo : ℚ → Nat → ℚ)
    (p_value alpha : ℚ) (decimal_places : Nat)
    (include_space include_equal : Bool) : String :=
  let space := if include_space then " " else ""
  if p_value < alpha then
    space ++ "<" ++ space ++ strOf alpha
  else
    if include_equal then
      space ++ "=" ++ space ++ strOf (roundTo p_value decimal_places)
    else
      space ++ strOf (roundTo p_value decimal_places)

/-- Claim C2: for the composite participant id built from `"1860B"` and
`"6472B"`, the raw session token `"6472B"` is labelled `"Session 2"` as
claimed; but for the raw token `"9999Z"`, which matches neither half, the
code signals no `AmbiguousSession` condition: the if/elif chain has no else
branch, the local variable is left unassigned (`none`), and the subsequent
`return` raises an accidental `UnboundLocalError`. -/
theorem session_disambiguation_bug :
    sessionLabel "sub-1860B6472B" "ses-6472B" = some "Session 2"
    ∧ sessionLabel "sub-1860B6472B" "ses-9999Z" = none := by
  exact ⟨by decide, by decide⟩

/-- Claim C3: on `'sub-ABCDE_ses-12345_T1w.nii.gz'` the token extraction does
find `"sub-ABCDE"` and `"ses-12345"`, but the function does not return the
pair of tokens: it returns the session-disambiguation label in the second
component, and on this input neither branch assigns it (`none`, i.e. the
Python code raises `UnboundLocalError` instead of returning
`("sub-ABCDE", "ses-12345")`). -/
theorem fetch_on_bids_filename_bug :
    fetchToken "sub-" "sub-ABCDE_ses-12345_T1w.nii.gz" = "sub-ABCDE"
    ∧ fetchToken "ses-" "sub-ABCDE_ses-12345_T1w.nii.gz" = "ses-12345"
    ∧ fetch_participant_and_session "sub-ABCDE_ses-12345_T1w.nii.gz"
        = ("sub-ABCDE", none) := by
  exact ⟨by decide, by decide, by decide⟩

/-- Claim C4: on the bare filename `'sub-1860B6472B_T1w.nii.gz'`, which has no
`ses-` token, the extraction does fail soft to the empty session token, but
the function as a whole does not return the empty string for the session
field: the empty token matches neither half of the composite id, no branch
assigns the session variable (`none`), and the Python code raises
`UnboundLocalError` instead of returning `("sub-1860B6472B", "")`. -/
theorem malformed_token_fail_soft_bug :
    fetchToken "ses-" "sub-1860B6472B_T1w.nii.gz" = ""
    ∧ fetch_participant_and_session "sub-1860B6472B_T1w.nii.gz"
        = ("sub-1860B6472B", none) := by
  exact ⟨by decide, by decide⟩

/-- Claim C8: the run-log setup does not truncate the previous run's log when
the working directory differs from the output folder: the existence check and
removal act on the relative path `cwd/dcm2bids.log`, while the handler opens
`<path-out>/dcm2bids.log` in append mode, so a record left at
`/out/dcm2bids.log` by a previous run survives the setup and the current
run's records are appended after it. -/
theorem log_appends_across_runs :
    ((setupLog "/work" "/out"
        ⟨fun p => p == "/out/dcm2bids.log",
         fun p => if p == "/out/dcm2bids.log" then ["previous run record"]
                  else []⟩).1).content "/out/dcm2bids.log"
      = ["previous run record"]
    ∧ (writeRecord (setupLog "/work" "/out"
        ⟨fun p => p == "/out/dcm2bids.log",
         fun p => if p == "/out/dcm2bids.log" then ["previous run record"]
                  else []⟩).1 "/out/dcm2bids.log"
        "current run record").content "/out/dcm2bids.log"
      = ["previous run record", "current run record"] := by
  exact ⟨rfl, rfl⟩

/-- If a 01b slot plans an execution, the source directory exists, the
destination does not, and the call carries the five parameters of the code. -/
theorem planSlot_executed_inv (fs : List String)
    (df bf cp sid src : String) (call : Dcm2bidsCall)
    (h : planSlot fs df bf cp sid src = ConversionOutcome.executed call) :
    pathJoin df ("sub-" ++ src) ∈ fs
    ∧ pathJoin (pathJoin bf ("sub-" ++ sid)) ("ses-" ++ src) ∉ fs
    ∧ call = ⟨pathJoin df ("sub-" ++ src), "sub-" ++ sid, "ses-" ++ src, bf, cp⟩ := by
  by_cases hs : pathJoin df ("sub-" ++ src) ∈ fs
  · by_cases hd : pathJoin (pathJoin bf ("sub-" ++ sid)) ("ses-" ++ src) ∈ fs
    · simp [planSlot, hs, hd] at h
    · refine ⟨hs, hd, ?_⟩
      simp [planSlot, hs, hd] at h
      exact h.symm
  · simp [planSlot, hs] at h

/-- Claim C1: whenever the destination tree already holds
`sub-<composite_id>/ses-<session_code>`, the 01b planner emits the
already-exists skip and never invokes the converter for that slot;
a slot that was planned for execution becomes a skip once its destination
marker directory is created; and re-planning against an unchanged
destination tree yields the identical job set. -/
theorem planner_skip_and_idempotence (fs : List String)
    (dicomFolder bidsFolder configPath subjectId sourceId : String) :
    (pathJoin (pathJoin bidsFolder ("sub-" ++ subjectId)) ("ses-" ++ sourceId) ∈ fs →
        (∀ call, planSlot fs dicomFolder bidsFolder configPath subjectId sourceId
            ≠ ConversionOutcome.executed call)
      ∧ (pathJoin dicomFolder ("sub-" ++ sourceId) ∈ fs →
          planSlot fs dicomFolder bidsFolder configPath subjectId sourceId
            = ConversionOutcome.skippedAlreadyExists))
    ∧ (∀ call, planSlot fs dicomFolder bidsFolder configPath subjectId sourceId
          = ConversionOutcome.executed call →
        planSlot
            (pathJoin (pathJoin bidsFolder ("sub-" ++ subjectId)) ("ses-" ++ sourceId) :: fs)
            dicomFolder bidsFolder configPath subjectId sourceId
          = ConversionOutcome.skippedAlreadyExists)
    ∧ (∀ rows, planJobs fs dicomFolder bidsFolder configPath rows
        = planJobs fs dicomFolder bidsFolder configPath rows) := by
  refine ⟨fun hdst => ⟨?_, ?_⟩, ?_, fun rows => rfl⟩
  · intro call h
    by_cases hs : pathJoin dicomFolder ("sub-" ++ sourceId) ∈ fs
    · simp [planSlot, hs, hdst] at h
    · simp [planSlot, hs] at h
  · intro hs
    simp [planSlot, hs, hdst]
  · intro call h
    obtain ⟨hs, -, -⟩ := planSlot_executed_inv _ _ _ _ _ _ _ h
    have hs1 : pathJoin dicomFolder ("sub-" ++ sourceId)
        ∈ pathJoin (pathJoin bidsFolder ("sub-" ++ subjectId)) ("ses-" ++ sourceId) :: fs :=
      List.mem_cons_of_mem _ hs
    have hd1 : pathJoin (pathJoin bidsFolder ("sub-" ++ subjectId)) ("ses-" ++ sourceId)
        ∈ pathJoin (pathJoin bidsFolder ("sub-" ++ subjectId)) ("ses-" ++ sourceId) :: fs :=
      List.mem_cons_self _ _
    simp [planSlot, hs1, hd1]

/-- Claim C1 witness: a roster slot whose source is present and whose
destination marker directory already exists is skipped. -/
theorem planner_skip_and_idempotence_witness :
    planSlot ["/in/sub-1860B", "/out/sub-1860B6472B/ses-1860B"]
        "/in" "/out" "/cfg" "1860B6472B" "1860B"
      = ConversionOutcome.skippedAlreadyExists :=
  ((planner_skip_and_idempotence ["/in/sub-1860B", "/out/sub-1860B6472B/ses-1860B"]
      "/in" "/out" "/cfg" "1860B6472B" "1860B").1 (by decide)).2 (by decide)

/-- Claim C5 counterexample: literal concatenation of the spec's example
codes gives `"1234A5678B"`, not the interleaved `"12345678AB"` the spec's
example asserts. -/
theorem composite_example_false :
    compositeId ⟨"ano", "1234A", "5678B"⟩ ≠ "12345678AB" := by
  decide

/-- Claim C5 (amended): the composite participant id is the literal
concatenation `subject_a_code ++ subject_b_code` — every converter call the
planner emits for a row carries the participant label
`sub-<mrB1 ++ mrB2>` — and on the example codes the composite id is
`"1234A5678B"`. -/
theorem composite_id_literal_concat (fs : List String)
    (dicomFolder bidsFolder configPath : String) (row : RosterRow) :
    (∀ call, ConversionOutcome.executed call
          ∈ planRow fs dicomFolder bidsFolder configPath row →
        call.participant = "sub-" ++ (row.mrB1 ++ row.mrB2))
    ∧ compositeId ⟨"ano", "1234A", "5678B"⟩ = "1234A5678B" := by
  refine ⟨?_, by decide⟩
  intro call h
  rcases List.mem_pair.mp h with h1 | h1
  all_goals
    obtain ⟨-, -, hcall⟩ := planSlot_executed_inv _ _ _ _ _ _ _ h1.symm
    rw [hcall]
    rfl

/-- Claim C5 witness: a concrete planned job for the example row carries the
concatenated participant label. -/
theorem composite_id_literal_concat_witness :
    (Dcm2bidsCall.mk "/in/sub-1234A" "sub-1234A5678B" "ses-1234A"
        "/out" "/cfg").participant
      = "sub-" ++ ("1234A" ++ "5678B") :=
  (composite_id_literal_concat ["/in/sub-1234A"] "/in" "/out" "/cfg"
      ⟨"ano", "1234A", "5678B"⟩).1
    ⟨"/in/sub-1234A", "sub-1234A5678B", "ses-1234A", "/out", "/cfg"⟩ (by decide)

/-- Claim C6: the roster filter keeps exactly the rows whose follow-up flag
equals the literal `'ano'`; any row with any other flag value is excluded
without error and contributes no conversion job to the plan. -/
theorem roster_filter_correct (fs : List String)
    (dicomFolder bidsFolder configPath : String)
    (rows : List RosterRow) (row : RosterRow) :
    (row ∈ filterRoster rows ↔ row ∈ rows ∧ row.fup = "ano")
    ∧ (row.fup ≠ "ano" →
        planJobs fs dicomFolder bidsFolder configPath [row] = []) := by
  constructor
  · simp [filterRoster]
  · intro hne
    simp [planJobs, filterRoster, hne]

/-- Claim C6 witness: a roster row whose follow-up flag is `'ne'` produces no
job at all. -/
theorem roster_filter_correct_witness :
    planJobs [] "/in" "/out" "/cfg" [⟨"ne", "1111A", "2222B"⟩] = [] :=
  (roster_filter_correct [] "/in" "/out" "/cfg"
      [⟨"ne", "1111A", "2222B"⟩] ⟨"ne", "1111A", "2222B"⟩).2 (by decide)

/-- Claim C7: if any of the requested roster columns is absent from the
sheet, the run fails with a `MissingColumn` error naming a requested, absent
column, and no job plan is ever produced. -/
theorem missing_column_fatal (fs : List String)
    (dicomFolder bidsFolder configPath : String) (sheet : XlsxSheet)
    (c : String) (hc : c ∈ defaultColumns) (habs : c ∉ sheet.columns) :
    (∃ c', c' ∈ defaultColumns ∧ c' ∉ sheet.columns
        ∧ main01b fs dicomFolder bidsFolder configPath sheet
            = Except.error (RosterError.missingColumn c'))
    ∧ ∀ outcomes, main01b fs dicomFolder bidsFolder configPath sheet
        ≠ Except.ok outcomes := by
  have hp : (!sheet.columns.contains c) = true := by
    simpa using habs
  cases hfind : defaultColumns.find? (fun c => !sheet.columns.contains c) with
  | none =>
      exact absurd hp (List.find?_eq_none.mp hfind c hc)
  | some c' =>
      have hpc' := List.find?_some hfind
      have hmem := List.mem_of_find?_eq_some hfind
      have habs' : c' ∉ sheet.columns := by simpa using hpc'
      refine ⟨⟨c', hmem, habs', ?_⟩, ?_⟩
      · simp only [main01b, read_xlsx_file, hfind]
      · intro outcomes
        simp only [main01b, read_xlsx_file, hfind]
        simp

/-- Claim C7 witness: a sheet lacking the `'MR B2'` column makes the driver
abort with `MissingColumn` and never reach planning. -/
theorem missing_column_fatal_witness :
    (∃ c', c' ∈ defaultColumns
        ∧ c' ∉ (XlsxSheet.mk ["FUP MR měření B provedeno (ano/ne)", "MR B1"] []).columns
        ∧ main01b [] "/in" "/out" "/cfg"
            (XlsxSheet.mk ["FUP MR měření B provedeno (ano/ne)", "MR B1"] [])
            = Except.error (RosterError.missingColumn c'))
    ∧ ∀ outcomes, main01b [] "/in" "/out" "/cfg"
        (XlsxSheet.mk ["FUP MR měření B provedeno (ano/ne)", "MR B1"] [])
        ≠ Except.ok outcomes :=
  missing_column_fatal [] "/in" "/out" "/cfg"
    (XlsxSheet.mk ["FUP MR měření B provedeno (ano/ne)", "MR B1"] [])
    "MR B2" (by decide) (by decide)

/-- A 00b slot outcome is never an already-exists skip. -/
theorem planSlot00b_ne_skipped (fs : List String) (df bf cp sid src : String) :
    planSlot00b fs df bf cp sid src ≠ ConversionOutcome.skippedAlreadyExists := by
  by_cases hs : pathJoin df ("sub-" ++ src) ∈ fs
  · simp [planSlot00b, hs]
  · simp [planSlot00b, hs]

/-- Claim C9: the 00b wrapper invokes the converter whenever the source
DICOM directory exists, with no destination check: the outcome is the
five-parameter call itself, it is never an already-exists skip for any slot
of any row, and it is unchanged under any change of the destination tree that
keeps the source present — re-running redoes completed work. -/
theorem wrapper00b_always_reconverts (fs fs2 : List String)
    (dicomFolder bidsFolder configPath subjectId sourceId : String)
    (row : RosterRow) :
    (pathJoin dicomFolder ("sub-" ++ sourceId) ∈ fs →
        planSlot00b fs dicomFolder bidsFolder configPath subjectId sourceId
          = ConversionOutcome.executed
              ⟨pathJoin dicomFolder ("sub-" ++ sourceId), "sub-" ++ subjectId,
               "ses-" ++ sourceId, bidsFolder, configPath⟩)
    ∧ (∀ out, out ∈ planRow00b fs dicomFolder bidsFolder configPath row →
        out ≠ ConversionOutcome.skippedAlreadyExists)
    ∧ (pathJoin dicomFolder ("sub-" ++ sourceId) ∈ fs →
        pathJoin dicomFolder ("sub-" ++ sourceId) ∈ fs2 →
        planSlot00b fs dicomFolder bidsFolder configPath subjectId sourceId
          = planSlot00b fs2 dicomFolder bidsFolder configPath subjectId sourceId) := by
  refine ⟨fun hs => by simp [planSlot00b, hs], ?_, fun hs hs2 => by
    simp [planSlot00b, hs, hs2]⟩
  intro out hout
  rcases List.mem_pair.mp hout with h1 | h1 <;> subst h1 <;>
    exact planSlot00b_ne_skipped _ _ _ _ _ _

/-- Claim C9 witness: even with the destination marker directory already
present in the tree, the 00b wrapper plans an execution for the slot. -/
theorem wrapper00b_always_reconverts_witness :
    planSlot00b ["/in/sub-1860B", "/out/sub-1860B6472B/ses-1860B"]
        "/in" "/out" "/cfg" "1860B6472B" "1860B"
      = ConversionOutcome.executed
          ⟨pathJoin "/in" ("sub-" ++ "1860B"), "sub-" ++ "1860B6472B",
           "ses-" ++ "1860B", "/out", "/cfg"⟩ :=
  (wrapper00b_always_reconverts
      ["/in/sub-1860B", "/out/sub-1860B6472B/ses-1860B"] []
      "/in" "/out" "/cfg" "1860B6472B" "1860B"
      ⟨"ano", "1860B", "6472B"⟩).1 (by decide)

/-- Claim C10: whenever `p_value < alpha`, `format_pvalue` returns
`space ++ "<" ++ space ++ str(alpha)`; the result depends only on `alpha`
and `include_space` — not on the magnitude of the p-value, not on
`include_equal`, not on `decimal_places`, and not on the rounding
function. -/
theorem format_pvalue_below_alpha (strOf : ℚ → String)
    (roundTo roundTo2 : ℚ → Nat → ℚ) (p p2 alpha : ℚ) (dp dp2 : Nat)
    (isp ieq ieq2 : Bool) (hp : p < alpha) (hp2 : p2 < alpha) :
    format_pvalue strOf roundTo p alpha dp isp ieq
      = (if isp then " " else "") ++ "<" ++ (if isp then " " else "")
          ++ strOf alpha
    ∧ format_pvalue strOf roundTo p alpha dp isp ieq
      = format_pvalue strOf roundTo2 p2 alpha dp2 isp ieq2 := by
  constructor
  · simp [format_pvalue, hp]
  · simp [format_pvalue, hp, hp2]

/-- Claim C10 witness: with the defaults (`alpha = 0.05`, spaces enabled) a
significant p-value such as `0.01` formats as `' < 0.05'`, identically for a
different significant p-value with `include_equal` disabled. -/
theorem format_pvalue_below_alpha_witness :
    ((1 : ℚ)/100 < 1/20)
    ∧ format_pvalue (fun _ => "0.05") (fun q _ => q) (1/100) (1/20) 3
        true true = " < 0.05"
    ∧ format_pvalue (fun _ => "0.05") (fun q _ => q) (1/100) (1/20) 3
        true true
      = format_pvalue (fun _ => "0.05") (fun q _ => q) (1/200) (1/20) 3
        true false := by
  have h := format_pvalue_below_alpha (fun _ => "0.05") (fun q _ => q)
    (fun q _ => q) (1/100) (1/200) (1/20) 3 3 true true false
    (by norm_num) (by norm_num)
  exact ⟨by norm_num, h.1.trans (by decide), h.2⟩

end DcmBrno
